import Mathlib

/-!
Verification of the BlindAid backend's talk-mode interaction flow.

Shallow embedding of the Express handlers in `src/index.js` (REST variant
lines 114-428 and socket variant lines 429-675) and `src/unnamed/part_002`:

- `/talk/images` upload (multer disk storage writing `live.jpg` / `last.jpg`
  into the `./temp` landing store, then the route handler's batch check),
- `/talk/query` REST handler (text check, file-existence check, Gemini
  payload assembly, fetch, reply extraction with fallback, flag reset,
  catch branch answering 500),
- `talk:userinput` socket handler (flag + text gate, payload assembly,
  reply emission, flag reset, silent catch),
- `/talk/status`.

File contents are modelled as `Option String` (`none` = file absent); the
external Gemini call is modelled by a `GatewayOutcome` parameter: either the
awaited chain throws (fetch rejection or an unparsable body) or it yields a
parsed JSON body from which the optional reply field
`data?.candidates?[0]?.content?.parts?[0]?.text` was extracted.
-/

namespace BlindAid

/-- The talk-mode landing store `./temp`: contents of `live.jpg` and
`last.jpg`; `none` models an absent file. -/
structure Store where
  live : Option String
  last : Option String
deriving DecidableEq, Repr

/-- Mutable talk-mode server state: the landing store plus the process-wide
readiness boolean (`talkReady` in the REST variant, `talkImagesReady` in the
socket variant). -/
structure TalkState where
  store : Store
  talkReady : Bool
deriving DecidableEq, Repr

/-- An upload batch for `/talk/images`: optional `live` and `last` file
fields, each carrying the uploaded bytes when present. -/
structure Batch where
  live : Option String
  last : Option String
deriving DecidableEq, Repr

/-- An HTTP response as produced by the handlers: status code, the `ok`
field, and the optional `reply` field of the JSON body. -/
structure Response where
  status : Nat
  ok : Bool
  reply : Option String
deriving DecidableEq, Repr

/-- One content part of the Gemini request payload: a text part or an
`inline_data` image part (mime type and base64 data). -/
inductive Part where
  | text (s : String)
  | inline_data (mime : String) (data : String)
deriving DecidableEq, Repr

/-- Outcome of the awaited external call chain
`fetch(...)` / `response.json()`: either some awaited step throws
(transport failure or unparsable body), or a parsed JSON body is obtained,
from which `data?.candidates?[0]?.content?.parts?[0]?.text` is the given
optional string. A non-2xx status with a parsable JSON body lands in
`responds` (the handlers never inspect `response.status`). -/
inductive GatewayOutcome where
  | throws
  | responds (replyField : Option String)
deriving DecidableEq, Repr

/-- multer `talkStorage.filename` routing for one field: an uploaded field
overwrites its fixed slot; an absent field leaves the slot untouched. -/
def multerWriteField (field slot : Option String) : Option String :=
  match field with
  | some contents => some contents
  | none => slot

/-- The multer middleware on `/talk/images` runs before the route handler:
every file present in the batch is written to its slot (`live` → `live.jpg`,
`last` → `last.jpg`) regardless of later validation. -/
def talkStorageWrite (batch : Batch) (s : Store) : Store :=
  { live := multerWriteField batch.live s.live
    last := multerWriteField batch.last s.last }

/-- Result of the `/talk/images` request: HTTP response plus new state. -/
structure UploadResult where
  resp : Response
  state : TalkState
deriving DecidableEq, Repr

/-- `/talk/images` handler: the multer middleware first writes the uploaded
files, then the handler rejects with 400 `{ok:false}` unless both
`req.files.live` and `req.files.last` are present, in which case it sets
`talkReady = true` and answers `{ok:true}`. -/
def talkImagesHandler (batch : Batch) (st : TalkState) : UploadResult :=
  let store := talkStorageWrite batch st.store
  if batch.live.isSome && batch.last.isSome then
    { resp := { status := 200, ok := true, reply := none }
      state := { store := store, talkReady := true } }
  else
    { resp := { status := 400, ok := false, reply := none }
      state := { store := store, talkReady := st.talkReady } }

/-- The REST `/talk/query` system prompt (template literal, verbatim). -/
def systemPrompt : String :=
  "\nYou are a calm, practical assistant helping a blind person.\n\nSpeak like a human guide.\nDo not ask questions.\nDo not give options.\n\nUse 1 to 3 short sentences.\nSay only what is visible and important.\nIf there is danger, warn clearly.\n\nEnd with:\nNext step:\n<one clear action>\n"

/-- The socket `talk:userinput` strict system prompt (template literal,
verbatim). -/
def strictSystemPrompt : String :=
  "\nYou are assisting a blind person.\n\nIMPORTANT RULES (DO NOT BREAK):\n\n- You MUST respond ONLY to what the user explicitly asks.\n- DO NOT describe images unless the user asks about what is in front of them.\n- Images are ONLY for silent context.\n- If the user asks a general question, answer from common knowledge.\n- NEVER mention images unless asked.\n- NEVER give options.\n- NEVER ask questions.\n- Use 1–3 short sentences only.\n\nIf the user asks about their surroundings:\nDescribe only what is clearly visible.\nWarn clearly if there is danger.\n\nEnd every response with:\n\nNext step:\n<one clear action>\n"

/-- The REST `/talk/query` payload's single `parts` list: system prompt,
\"Previous view:\" label, `last.jpg` image, \"Current view:\" label,
`live.jpg` image, then the user text. -/
def talkQueryParts (text lastBase64 liveBase64 : String) : List Part :=
  [ Part.text systemPrompt
  , Part.text "Previous view:"
  , Part.inline_data "image/jpeg" lastBase64
  , Part.text "Current view:"
  , Part.inline_data "image/jpeg" liveBase64
  , Part.text ("User said: " ++ text) ]

/-- The socket `talk:userinput` payload's single `parts` list: strict system
prompt, the two images as silent context (`last.jpg` then `live.jpg`), then
the user text. -/
def talkUserInputParts (text lastBase64 liveBase64 : String) : List Part :=
  [ Part.text strictSystemPrompt
  , Part.inline_data "image/jpeg" lastBase64
  , Part.inline_data "image/jpeg" liveBase64
  , Part.text ("User said: " ++ text) ]

/-- Fallback reply of the REST `/talk/query` handler. -/
def fallbackReply : String := "I am not able to understand the scene clearly."

/-- Fallback reply of the socket `talk:userinput` handler. -/
def socketFallbackReply : String := "I am not able to help with that."

/-- JS `a || fallback` reply extraction: the optional reply field is used
when present and truthy (non-empty); otherwise the fallback string. -/
def extractReply (fallback : String) : Option String → String
  | some t => if t = "" then fallback else t
  | none => fallback

/-- Result of one `/talk/query` request: the HTTP response, the new state,
and the Gemini request body that was sent (`none` when the handler returned
before issuing the external call). -/
structure QueryResult where
  resp : Response
  state : TalkState
  request : Option (List Part)
deriving DecidableEq, Repr

/-- REST `/talk/query` handler. `if (!text)` rejects an absent or empty
text with 400 `{ok:false}`; then `fs.existsSync` on both image paths
rejects with 400 `{ok:false}` if either file is missing (the readiness flag
is never consulted); otherwise the payload is assembled from the file
contents and posted. If the awaited chain throws, the catch answers 500
`{ok:false}` and the state is untouched; otherwise the reply (field or
fallback) is returned with `{ok:true}` and `talkReady` is set to false.
The stored files are never deleted. -/
def talkQueryHandler (text : Option String) (outcome : GatewayOutcome)
    (st : TalkState) : QueryResult :=
  match text with
  | none => { resp := { status := 400, ok := false, reply := none }
              state := st, request := none }
  | some t =>
    if t = "" then
      { resp := { status := 400, ok := false, reply := none }
        state := st, request := none }
    else
      match st.store.live, st.store.last with
      | some liveBase64, some lastBase64 =>
        let payload := talkQueryParts t lastBase64 liveBase64
        match outcome with
        | GatewayOutcome.throws =>
          { resp := { status := 500, ok := false, reply := none }
            state := st, request := some payload }
        | GatewayOutcome.responds replyField =>
          { resp := { status := 200, ok := true
                      reply := some (extractReply fallbackReply replyField) }
            state := { store := st.store, talkReady := false }
            request := some payload }
      | _, _ =>
        { resp := { status := 400, ok := false, reply := none }
          state := st, request := none }

/-- Result of one socket `talk:userinput` event: the `talk:reply` payload
emitted (if any), the new state, and the Gemini request body sent (if
any). -/
structure SocketResult where
  emitted : Option String
  state : TalkState
  request : Option (List Part)
deriving DecidableEq, Repr

/-- Socket `talk:userinput` handler. `if (!talkImagesReady || !text)
return;` silently drops the event when the flag is down or the text is
absent/empty; a missing image file also silently returns; otherwise the
payload is assembled and posted. A throwing awaited chain is swallowed by
the catch (no emission, state untouched); otherwise the flag is reset and
the reply is emitted. -/
def talkUserInputHandler (text : Option String) (outcome : GatewayOutcome)
    (st : TalkState) : SocketResult :=
  if !st.talkReady then { emitted := none, state := st, request := none }
  else
    match text with
    | none => { emitted := none, state := st, request := none }
    | some t =>
      if t = "" then { emitted := none, state := st, request := none }
      else
        match st.store.live, st.store.last with
        | some liveBase64, some lastBase64 =>
          let payload := talkUserInputParts t lastBase64 liveBase64
          match outcome with
          | GatewayOutcome.throws =>
            { emitted := none, state := st, request := some payload }
          | GatewayOutcome.responds replyField =>
            { emitted := some (extractReply socketFallbackReply replyField)
              state := { store := st.store, talkReady := false }
              request := some payload }
        | _, _ => { emitted := none, state := st, request := none }

/-- `/talk/status` handler: reads the flag, no state change. -/
def talkStatusHandler (st : TalkState) : Bool × TalkState :=
  (st.talkReady, st)

/-- Predicate on parts: is this an `inline_data` image part? -/
def isImagePart : Part → Bool
  | Part.inline_data _ _ => true
  | Part.text _ => false

/-- The image parts of a payload, in order. -/
def imageParts (ps : List Part) : List Part := ps.filter isImagePart

/-- The talk-mode operations exercised by the claims. -/
inductive Op where
  | uploadImages (batch : Batch)
  | restQuery (text : Option String) (outcome : GatewayOutcome)
  | socketQuery (text : Option String) (outcome : GatewayOutcome)
  | statusRead
deriving DecidableEq, Repr

/-- State transition of one operation. -/
def stepOp : Op → TalkState → TalkState
  | Op.uploadImages batch, st => (talkImagesHandler batch st).state
  | Op.restQuery t o, st => (talkQueryHandler t o st).state
  | Op.socketQuery t o, st => (talkUserInputHandler t o st).state
  | Op.statusRead, st => (talkStatusHandler st).2

/-- Server start state: fresh `./temp` directory, flag down. -/
def initState : TalkState :=
  { store := { live := none, last := none }, talkReady := false }

/-- States reachable from server start by talk-mode operations. -/
inductive Reachable : TalkState → Prop where
  | init : Reachable initState
  | next : ∀ {s} (op : Op), Reachable s → Reachable (stepOp op s)

/-- The readiness invariant: the flag up implies both images present. -/
def TalkInv (st : TalkState) : Prop :=
  st.talkReady = true → st.store.live.isSome = true ∧ st.store.last.isSome = true

/-! ### Helper lemmas -/

/-- A multer slot write never removes a file: a present slot stays present. -/
theorem multerWriteField_isSome (field slot : Option String)
    (h : slot.isSome = true) : (multerWriteField field slot).isSome = true := by
  cases field
  · exact h
  · rfl

/-- An upload batch with exactly one of the two tags fails the handler's
`req.files.live && req.files.last` check. -/
theorem batch_one_tag_and_false (batch : Batch)
    (h : batch.live.isSome ≠ batch.last.isSome) :
    (batch.live.isSome && batch.last.isSome) = false := by
  cases hl : batch.live.isSome <;> cases hla : batch.last.isSome <;> simp_all

/-- The REST query handler either leaves the state unchanged or only lowers
the flag (the store is never modified). -/
theorem talkQueryHandler_state_cases (text : Option String) (o : GatewayOutcome)
    (st : TalkState) :
    (talkQueryHandler text o st).state = st
    ∨ (talkQueryHandler text o st).state = { store := st.store, talkReady := false } := by
  rcases text with _ | t
  · exact Or.inl rfl
  · by_cases ht : t = ""
    · simp [talkQueryHandler, ht]
    · rcases hl : st.store.live with _ | l <;>
        rcases hla : st.store.last with _ | la <;>
        cases o <;> simp [talkQueryHandler, ht, hl, hla]

/-- The socket handler either leaves the state unchanged or only lowers the
flag (the store is never modified). -/
theorem talkUserInputHandler_state_cases (text : Option String)
    (o : GatewayOutcome) (st : TalkState) :
    (talkUserInputHandler text o st).state = st
    ∨ (talkUserInputHandler text o st).state = { store := st.store, talkReady := false } := by
  cases hf : st.talkReady
  · simp [talkUserInputHandler, hf]
  · rcases text with _ | t
    · simp [talkUserInputHandler, hf]
    · by_cases ht : t = ""
      · simp [talkUserInputHandler, hf, ht]
      · rcases hl : st.store.live with _ | l <;>
          rcases hla : st.store.last with _ | la <;>
          cases o <;> simp [talkUserInputHandler, hf, ht, hl, hla]

/-- With either image file missing, the REST query handler answers 400
`ok:false`, makes no gateway call and changes no state. -/
theorem talkQueryHandler_not_ready (text : Option String) (o : GatewayOutcome)
    (st : TalkState) (h : st.store.live = none ∨ st.store.last = none) :
    (talkQueryHandler text o st).resp = { status := 400, ok := false, reply := none }
    ∧ (talkQueryHandler text o st).request = none
    ∧ (talkQueryHandler text o st).state = st := by
  rcases text with _ | t
  · simp [talkQueryHandler]
  · by_cases ht : t = ""
    · simp [talkQueryHandler, ht]
    · rcases hl : st.store.live with _ | l <;>
        rcases hla : st.store.last with _ | la <;>
        simp_all [talkQueryHandler, ht]

/-- The upload handler preserves the readiness invariant. -/
theorem talkImagesHandler_inv (batch : Batch) (st : TalkState) (h : TalkInv st) :
    TalkInv (talkImagesHandler batch st).state := by
  unfold TalkInv at h ⊢
  rcases hb1 : batch.live with _ | c1 <;> rcases hb2 : batch.last with _ | c2 <;>
    simp [talkImagesHandler, talkStorageWrite, multerWriteField, hb1, hb2] <;>
    intro hr <;>
    first
      | exact h hr
      | exact (h hr).1
      | exact (h hr).2

/-- Every talk-mode operation preserves the readiness invariant. -/
theorem stepOp_preserves_TalkInv (op : Op) (st : TalkState) (h : TalkInv st) :
    TalkInv (stepOp op st) := by
  cases op with
  | uploadImages batch => exact talkImagesHandler_inv batch st h
  | restQuery t o =>
    have hst : stepOp (Op.restQuery t o) st = (talkQueryHandler t o st).state := rfl
    rcases talkQueryHandler_state_cases t o st with hc | hc <;>
      unfold TalkInv <;> rw [hst, hc]
    · exact h
    · intro hr; exact absurd hr (by simp)
  | socketQuery t o =>
    have hst : stepOp (Op.socketQuery t o) st
        = (talkUserInputHandler t o st).state := rfl
    rcases talkUserInputHandler_state_cases t o st with hc | hc <;>
      unfold TalkInv <;> rw [hst, hc]
    · exact h
    · intro hr; exact absurd hr (by simp)
  | statusRead => exact h

/-- Every reachable state satisfies the readiness invariant. -/
theorem reachable_TalkInv (st : TalkState) (h : Reachable st) : TalkInv st := by
  induction h with
  | init => intro hr; simp [initState] at hr
  | next op _ ih => exact stepOp_preserves_TalkInv op _ ih

/-- The reply extracted by the JS `||` chain is never the empty string when
the fallback string is non-empty. -/
theorem extractReply_ne_empty (fb : String) (hfb : ¬ fb = "") (rf : Option String) :
    ¬ extractReply fb rf = "" := by
  rcases rf with _ | t
  · simpa [extractReply]
  · by_cases ht : t = "" <;> simp [extractReply, ht, hfb]

/-! ### Claim theorems -/

/-- C1 counterexample: a `VisualContext` query that completes (the gateway
replies and the reply is delivered) leaves BOTH images still present in the
landing store — the claim that both stored images are absent after the
query is false; the code never deletes `live.jpg` or `last.jpg`. -/
theorem C1_counterexample :
    (talkQueryHandler (some "what is in front of me")
        (GatewayOutcome.responds (some "There is a chair ahead."))
        { store := { live := some "LIVEIMG", last := some "LASTIMG" }
          talkReady := true }).resp.reply = some "There is a chair ahead."
    ∧ (talkQueryHandler (some "what is in front of me")
        (GatewayOutcome.responds (some "There is a chair ahead."))
        { store := { live := some "LIVEIMG", last := some "LASTIMG" }
          talkReady := true }).state.store
      = { live := some "LIVEIMG", last := some "LASTIMG" } := by decide

/-- C1 amended: after a `VisualContext` query completes (gateway reply field
present or the fallback used), the readiness flag is false, and the reset
happens only after the external call returns (a call that throws leaves the
whole state unchanged); but the stored images are NOT deleted — the landing
store is exactly as before the query. -/
theorem C1_one_shot_flag_only (st : TalkState) (t : String) (ht : ¬ t = "")
    (live last : String) (hl : st.store.live = some live)
    (hla : st.store.last = some last) (replyField : Option String) :
    (talkQueryHandler (some t) (GatewayOutcome.responds replyField) st).state.talkReady = false
    ∧ (talkQueryHandler (some t) (GatewayOutcome.responds replyField) st).state.store = st.store
    ∧ (talkQueryHandler (some t) (GatewayOutcome.responds replyField) st).resp.reply.isSome = true
    ∧ (talkQueryHandler (some t) GatewayOutcome.throws st).state = st := by
  simp [talkQueryHandler, ht, hl, hla]

/-- C1 witness: the amended consumption theorem at a concrete session. -/
theorem C1_one_shot_flag_only_witness :
    (talkQueryHandler (some "what do you see")
        (GatewayOutcome.responds (some "A wall."))
        { store := { live := some "L", last := some "P" }
          talkReady := true }).state.talkReady = false
    ∧ (talkQueryHandler (some "what do you see")
        (GatewayOutcome.responds (some "A wall."))
        { store := { live := some "L", last := some "P" }
          talkReady := true }).state.store = { live := some "L", last := some "P" } := by
  have h := C1_one_shot_flag_only
    { store := { live := some "L", last := some "P" }, talkReady := true }
    "what do you see" (by decide) "L" "P" rfl rfl (some "A wall.")
  exact ⟨h.1, h.2.1⟩

/-- C2 counterexample: after one complete upload and one consumed query the
flag is false, yet a second query on the same (undeleted) images is
answered with a normal scene reply and a gateway call is made — refuting
"a normal reply is produced only if the readiness flag is true". -/
theorem C2_counterexample :
    ((talkImagesHandler { live := some "L", last := some "P" } initState).state.talkReady = true)
    ∧ ((talkQueryHandler (some "first question")
          (GatewayOutcome.responds (some "A hallway."))
          (talkImagesHandler { live := some "L", last := some "P" } initState).state).state.talkReady
        = false)
    ∧ ((talkQueryHandler (some "second question")
          (GatewayOutcome.responds (some "A door ahead."))
          (talkQueryHandler (some "first question")
            (GatewayOutcome.responds (some "A hallway."))
            (talkImagesHandler { live := some "L", last := some "P" } initState).state).state).resp.reply
        = some "A door ahead.")
    ∧ ((talkQueryHandler (some "second question")
          (GatewayOutcome.responds (some "A door ahead."))
          (talkQueryHandler (some "first question")
            (GatewayOutcome.responds (some "A hallway."))
            (talkImagesHandler { live := some "L", last := some "P" } initState).state).state).request.isSome
        = true) := by decide

/-- C2 amended: the REST `/talk/query` handler gates only on the presence
of both image files — if either is missing it answers 400 `ok:false`
without calling the gateway and without state change — and never consults
the readiness flag; only the socket handler gates on the flag: with the
flag down it makes no call, emits nothing and changes no state. -/
theorem C2_readiness_gating (st : TalkState) (text : Option String)
    (o : GatewayOutcome) :
    ((st.store.live = none ∨ st.store.last = none) →
      (talkQueryHandler text o st).resp = { status := 400, ok := false, reply := none }
      ∧ (talkQueryHandler text o st).request = none
      ∧ (talkQueryHandler text o st).state = st)
    ∧ (st.talkReady = false →
      (talkUserInputHandler text o st).request = none
      ∧ (talkUserInputHandler text o st).emitted = none
      ∧ (talkUserInputHandler text o st).state = st) := by
  constructor
  · exact talkQueryHandler_not_ready text o st
  · intro hf
    simp [talkUserInputHandler, hf]

/-- C2 witness: the amended gating theorem at a concrete not-ready
session. -/
theorem C2_readiness_gating_witness :
    (talkQueryHandler (some "what is in front of me")
        (GatewayOutcome.responds (some "ignored")) initState).request = none
    ∧ (talkUserInputHandler (some "what is in front of me")
        (GatewayOutcome.responds (some "ignored")) initState).emitted = none := by
  have h := C2_readiness_gating initState (some "what is in front of me")
    (GatewayOutcome.responds (some "ignored"))
  exact ⟨(h.1 (Or.inl rfl)).2.1, (h.2 rfl).2.1⟩

/-- C3 counterexample: the code has no query classifier and no
general-knowledge branch: the query "who is the prime minister of India",
issued with a ready image pair, is assembled with TWO image parts (not
zero) by both handlers, and afterwards the readiness flag is false (not
unchanged). -/
theorem C3_counterexample :
    ((talkUserInputHandler (some "who is the prime minister of India")
        (GatewayOutcome.responds (some "Some reply."))
        { store := { live := some "L", last := some "P" }
          talkReady := true }).request.map (fun ps => (imageParts ps).length)
      = some 2)
    ∧ ((talkUserInputHandler (some "who is the prime minister of India")
        (GatewayOutcome.responds (some "Some reply."))
        { store := { live := some "L", last := some "P" }
          talkReady := true }).state.talkReady = false)
    ∧ ((talkQueryHandler (some "who is the prime minister of India")
        (GatewayOutcome.responds (some "Some reply."))
        { store := { live := some "L", last := some "P" }
          talkReady := true }).request.map (fun ps => (imageParts ps).length)
      = some 2)
    ∧ ((talkQueryHandler (some "who is the prime minister of India")
        (GatewayOutcome.responds (some "Some reply."))
        { store := { live := some "L", last := some "P" }
          talkReady := true }).state.talkReady = false) := by decide

/-- C3 amended: there is no general-knowledge branch: every query that
reaches the gateway — whatever its text — carries exactly two image parts
in the assembled request (images are attached as silent context), and
after the reply the readiness flag is reset to false; only the stored
images themselves are left unchanged. -/
theorem C3_no_general_knowledge_branch (st : TalkState) (t : String)
    (ht : ¬ t = "") (live last : String) (hl : st.store.live = some live)
    (hla : st.store.last = some last) (replyField : Option String)
    (hr : st.talkReady = true) :
    ((talkQueryHandler (some t) (GatewayOutcome.responds replyField) st).request.map
        (fun ps => (imageParts ps).length) = some 2)
    ∧ (talkQueryHandler (some t) (GatewayOutcome.responds replyField) st).state.talkReady = false
    ∧ ((talkUserInputHandler (some t) (GatewayOutcome.responds replyField) st).request.map
        (fun ps => (imageParts ps).length) = some 2)
    ∧ (talkUserInputHandler (some t) (GatewayOutcome.responds replyField) st).state.talkReady = false
    ∧ (talkUserInputHandler (some t) (GatewayOutcome.responds replyField) st).state.store = st.store := by
  simp [talkQueryHandler, talkUserInputHandler, ht, hl, hla, hr,
    talkQueryParts, talkUserInputParts, imageParts, isImagePart]

/-- C3 witness: the amended no-classifier theorem at the scenario C
query. -/
theorem C3_no_general_knowledge_branch_witness :
    (talkUserInputHandler (some "who is the prime minister of India")
        (GatewayOutcome.responds (some "Reply text."))
        { store := { live := some "A", last := some "B" }
          talkReady := true }).request.map (fun ps => (imageParts ps).length)
      = some 2 := by
  have h := C3_no_general_knowledge_branch
    { store := { live := some "A", last := some "B" }, talkReady := true }
    "who is the prime minister of India" (by decide) "A" "B" rfl rfl
    (some "Reply text.") rfl
  exact h.2.2.1

/-- C4 counterexample: a transport failure (the awaited fetch throws) is
NOT absorbed into the fallback string: the REST handler answers 500
`ok:false` with no reply at all — refuting "never propagates a hard error
or a 5xx-equivalent response". -/
theorem C4_counterexample :
    ((talkQueryHandler (some "what is in front of me") GatewayOutcome.throws
        { store := { live := some "L", last := some "P" }
          talkReady := true }).resp.status = 500)
    ∧ ((talkQueryHandler (some "what is in front of me") GatewayOutcome.throws
        { store := { live := some "L", last := some "P" }
          talkReady := true }).resp.ok = false)
    ∧ ((talkQueryHandler (some "what is in front of me") GatewayOutcome.throws
        { store := { live := some "L", last := some "P" }
          talkReady := true }).resp.reply = none) := by decide

/-- C4 amended: when the external call yields a parsed JSON body whose
reply field is missing or empty (this covers non-2xx responses with JSON
error bodies, since the handler never inspects the status), the caller
receives the fixed fallback string with 200 `ok:true`; but when the awaited
chain throws (transport failure or unparsable body) the catch branch
answers 500 `ok:false` with no reply string. -/
theorem C4_fail_soft_gateway (st : TalkState) (t : String) (ht : ¬ t = "")
    (live last : String) (hl : st.store.live = some live)
    (hla : st.store.last = some last) :
    (talkQueryHandler (some t) (GatewayOutcome.responds none) st).resp
      = { status := 200, ok := true, reply := some fallbackReply }
    ∧ (talkQueryHandler (some t) (GatewayOutcome.responds (some "")) st).resp
      = { status := 200, ok := true, reply := some fallbackReply }
    ∧ (talkQueryHandler (some t) GatewayOutcome.throws st).resp
      = { status := 500, ok := false, reply := none } := by
  simp [talkQueryHandler, ht, hl, hla, extractReply]

/-- C4 witness: the amended fail-soft theorem at a concrete ready
session. -/
theorem C4_fail_soft_gateway_witness :
    (talkQueryHandler (some "describe the scene")
        (GatewayOutcome.responds none)
        { store := { live := some "L", last := some "P" }
          talkReady := true }).resp
      = { status := 200, ok := true, reply := some fallbackReply } := by
  have h := C4_fail_soft_gateway
    { store := { live := some "L", last := some "P" }, talkReady := true }
    "describe the scene" (by decide) "L" "P" rfl rfl
  exact h.1

/-- C5 counterexample: in the not-ready case the REST handler delivers NO
reply string at all (400 `ok:false` with an absent reply field), refuting
the claimed fixed "please wait" reply. -/
theorem C5_counterexample :
    ((talkQueryHandler (some "what is in front of me")
        (GatewayOutcome.responds (some "ignored")) initState).resp.reply = none)
    ∧ ((talkQueryHandler (some "what is in front of me")
        (GatewayOutcome.responds (some "ignored")) initState).resp.ok = false)
    ∧ ((talkQueryHandler (some "what is in front of me")
        (GatewayOutcome.responds (some "ignored")) initState).resp.status = 400) := by decide

/-- C5 amended: a query whose external call returns a body yields exactly
one non-empty reply string (field or fallback); but the not-ready case
yields no reply string: the REST handler answers 400 `ok:false` with an
absent reply field while performing no state change, and the socket handler
emits nothing. -/
theorem C5_single_reply (st : TalkState) (t : String) (ht : ¬ t = "")
    (rf : Option String) :
    (∀ live last, st.store.live = some live → st.store.last = some last →
      (talkQueryHandler (some t) (GatewayOutcome.responds rf) st).resp.reply
        = some (extractReply fallbackReply rf)
      ∧ ¬ extractReply fallbackReply rf = "")
    ∧ ((st.store.live = none ∨ st.store.last = none) →
      (talkQueryHandler (some t) (GatewayOutcome.responds rf) st).resp
        = { status := 400, ok := false, reply := none }
      ∧ (talkQueryHandler (some t) (GatewayOutcome.responds rf) st).state = st
      ∧ (talkUserInputHandler (some t) (GatewayOutcome.responds rf) st).emitted = none) := by
  constructor
  · intro live last hl hla
    refine ⟨?_, extractReply_ne_empty fallbackReply (by decide) rf⟩
    simp [talkQueryHandler, ht, hl, hla]
  · intro h
    refine ⟨(talkQueryHandler_not_ready _ _ st h).1,
      (talkQueryHandler_not_ready _ _ st h).2.2, ?_⟩
    cases hf : st.talkReady
    · simp [talkUserInputHandler, hf]
    · rcases hl : st.store.live with _ | l <;>
        rcases hla : st.store.last with _ | la <;>
        simp_all [talkUserInputHandler, ht]

/-- C5 witness: the amended single-reply theorem at a concrete ready
session with a well-formed gateway body. -/
theorem C5_single_reply_witness :
    (talkQueryHandler (some "what do you see")
        (GatewayOutcome.responds (some "A corridor."))
        { store := { live := some "L", last := some "P" }
          talkReady := true }).resp.reply = some "A corridor." := by
  have h := C5_single_reply
    { store := { live := some "L", last := some "P" }, talkReady := true }
    "what do you see" (by decide) (some "A corridor.")
  have h2 := (h.1 "L" "P" rfl rfl).1
  simpa [extractReply] using h2

/-- C6 counterexample: two successive partial uploads are each rejected
with 400 and never raise the flag, yet each wrote its one file before
rejection, so after complementary partial uploads both files are present
and a subsequent visual query is answered with a normal scene reply instead
of the claimed not-ready reply. -/
theorem C6_counterexample :
    ((talkImagesHandler { live := none, last := some "B" } initState).resp.status = 400)
    ∧ ((talkImagesHandler { live := some "C", last := none }
          (talkImagesHandler { live := none, last := some "B" } initState).state).resp.status
        = 400)
    ∧ ((talkImagesHandler { live := some "C", last := none }
          (talkImagesHandler { live := none, last := some "B" } initState).state).state.talkReady
        = false)
    ∧ ((talkQueryHandler (some "what is in front of me")
          (GatewayOutcome.responds (some "There is a door."))
          (talkImagesHandler { live := some "C", last := none }
            (talkImagesHandler { live := none, last := some "B" } initState).state).state).resp.reply
        = some "There is a door.") := by decide

/-- C6 amended: an upload batch with only one of the two tags is rejected
with 400 and leaves the readiness flag unchanged (it never transitions to
`Ready`); when the other tag's file is also absent from the store, a
subsequent visual query is rejected 400 with no gateway call — but the
rejected upload still writes its one file, so complementary partial uploads
can make a later query answerable despite the flag staying down. -/
theorem C6_no_partial_readiness (st : TalkState) (batch : Batch)
    (hone : batch.live.isSome ≠ batch.last.isSome) :
    (talkImagesHandler batch st).resp.status = 400
    ∧ (talkImagesHandler batch st).state.talkReady = st.talkReady
    ∧ (st.store.live = none → st.store.last = none →
        ∀ text o,
          (talkQueryHandler text o (talkImagesHandler batch st).state).resp.status = 400
          ∧ (talkQueryHandler text o (talkImagesHandler batch st).state).request = none) := by
  have hb := batch_one_tag_and_false batch hone
  refine ⟨?_, ?_, ?_⟩
  · simp [talkImagesHandler, hb]
  · simp [talkImagesHandler, hb]
  · intro hlive hlast text o
    have hmiss : (talkImagesHandler batch st).state.store.live = none
        ∨ (talkImagesHandler batch st).state.store.last = none := by
      rcases hl : batch.live with _ | c1
      · left
        simp [talkImagesHandler, hb, talkStorageWrite, multerWriteField, hl, hlive]
      · right
        rcases hla : batch.last with _ | c2
        · simp [talkImagesHandler, hb, talkStorageWrite, multerWriteField, hla, hlast]
        · rw [hl, hla] at hone
          simp at hone
    have h := talkQueryHandler_not_ready text o _ hmiss
    rw [h.1, h.2.1]
    exact ⟨rfl, rfl⟩

/-- C6 witness: the amended no-partial-readiness theorem at a concrete
partial upload on a fresh store. -/
theorem C6_no_partial_readiness_witness :
    (talkImagesHandler { live := some "C", last := none } initState).resp.status = 400
    ∧ (talkImagesHandler { live := some "C", last := none } initState).state.talkReady = false
    ∧ (talkQueryHandler (some "what is in front of me")
        (GatewayOutcome.responds (some "ignored"))
        (talkImagesHandler { live := some "C", last := none } initState).state).resp.status = 400 := by
  have h := C6_no_partial_readiness initState { live := some "C", last := none }
    (by decide)
  exact ⟨h.1, h.2.1, (h.2.2 rfl rfl (some "what is in front of me")
    (GatewayOutcome.responds (some "ignored"))).1⟩

/-- C7: fixed image ordering: in every assembled `VisualContext` request
(REST and socket), the image parts appear in the order `last.jpg` (the
previous view) then `live.jpg` (the current view); in the REST payload the
first image part is immediately preceded by the text part "Previous view:"
and the second by "Current view:". -/
theorem C7_fixed_image_ordering (st : TalkState) (t : String) (ht : ¬ t = "")
    (live last : String) (hl : st.store.live = some live)
    (hla : st.store.last = some last) (o : GatewayOutcome)
    (hr : st.talkReady = true) :
    (talkQueryHandler (some t) o st).request.map imageParts
      = some [Part.inline_data "image/jpeg" last, Part.inline_data "image/jpeg" live]
    ∧ (talkQueryHandler (some t) o st).request.bind (fun ps => ps[1]?)
      = some (Part.text "Previous view:")
    ∧ (talkQueryHandler (some t) o st).request.bind (fun ps => ps[2]?)
      = some (Part.inline_data "image/jpeg" last)
    ∧ (talkQueryHandler (some t) o st).request.bind (fun ps => ps[3]?)
      = some (Part.text "Current view:")
    ∧ (talkQueryHandler (some t) o st).request.bind (fun ps => ps[4]?)
      = some (Part.inline_data "image/jpeg" live)
    ∧ (talkUserInputHandler (some t) o st).request.map imageParts
      = some [Part.inline_data "image/jpeg" last, Part.inline_data "image/jpeg" live] := by
  cases o <;>
    simp [talkQueryHandler, talkUserInputHandler, ht, hl, hla, hr,
      talkQueryParts, talkUserInputParts, imageParts, isImagePart]

/-- C7 witness: the ordering theorem at a concrete ready session. -/
theorem C7_fixed_image_ordering_witness :
    (talkQueryHandler (some "what changed")
        (GatewayOutcome.responds (some "Nothing changed."))
        { store := { live := some "CUR", last := some "PREV" }
          talkReady := true }).request.map imageParts
      = some [Part.inline_data "image/jpeg" "PREV", Part.inline_data "image/jpeg" "CUR"] := by
  have h := C7_fixed_image_ordering
    { store := { live := some "CUR", last := some "PREV" }, talkReady := true }
    "what changed" (by decide) "CUR" "PREV" rfl rfl
    (GatewayOutcome.responds (some "Nothing changed.")) rfl
  exact h.1

/-- C8: readiness invariant: in every state reachable from server start by
talk-mode operations, a raised readiness flag implies both `live.jpg` and
`last.jpg` are present in the landing store; moreover every operation
(upload, REST query, socket query, status read) applied to such a state
preserves the invariant. -/
theorem C8_readiness_invariant (st : TalkState) (h : Reachable st) :
    (st.talkReady = true → st.store.live.isSome = true ∧ st.store.last.isSome = true)
    ∧ ∀ op : Op, (stepOp op st).talkReady = true →
        (stepOp op st).store.live.isSome = true
        ∧ (stepOp op st).store.last.isSome = true :=
  ⟨reachable_TalkInv st h,
   fun op => stepOp_preserves_TalkInv op st (reachable_TalkInv st h)⟩

/-- C8 witness: the invariant at the concrete reachable state produced by
one complete upload: the flag is up and both images are present. -/
theorem C8_readiness_invariant_witness :
    (stepOp (Op.uploadImages { live := some "A", last := some "B" }) initState).talkReady = true
    ∧ (stepOp (Op.uploadImages { live := some "A", last := some "B" }) initState).store.live.isSome = true
    ∧ (stepOp (Op.uploadImages { live := some "A", last := some "B" }) initState).store.last.isSome = true := by
  have h := C8_readiness_invariant
    (stepOp (Op.uploadImages { live := some "A", last := some "B" }) initState)
    (Reachable.next (Op.uploadImages { live := some "A", last := some "B" })
      Reachable.init)
  exact ⟨by decide, (h.1 (by decide)).1, (h.1 (by decide)).2⟩

/-- C9 counterexample: a partial upload rejected with 400 has already
overwritten the provided slot: `live.jpg` held "OLD" before the rejected
upload and "NEW" after it — the landing store is not as it was. -/
theorem C9_counterexample :
    ((talkImagesHandler { live := some "NEW", last := none }
        (talkImagesHandler { live := some "OLD", last := some "B" } initState).state).resp.status
      = 400)
    ∧ ((talkImagesHandler { live := some "OLD", last := some "B" } initState).state.store.live
      = some "OLD")
    ∧ ((talkImagesHandler { live := some "NEW", last := none }
        (talkImagesHandler { live := some "OLD", last := some "B" } initState).state).state.store.live
      = some "NEW") := by decide

/-- C9 amended: a rejected partial upload leaves the readiness flag and the
slot of the absent tag unchanged, but the slot of the provided tag is
overwritten with the uploaded contents, because the multer storage
middleware writes the file before the handler's validation runs. -/
theorem C9_partial_upload_frame (st : TalkState) (batch : Batch)
    (hone : batch.live.isSome ≠ batch.last.isSome) :
    (talkImagesHandler batch st).resp.status = 400
    ∧ (talkImagesHandler batch st).state.talkReady = st.talkReady
    ∧ (batch.live = none → (talkImagesHandler batch st).state.store.live = st.store.live)
    ∧ (batch.last = none → (talkImagesHandler batch st).state.store.last = st.store.last)
    ∧ (∀ c, batch.live = some c → (talkImagesHandler batch st).state.store.live = some c)
    ∧ (∀ c, batch.last = some c → (talkImagesHandler batch st).state.store.last = some c) := by
  have hb := batch_one_tag_and_false batch hone
  refine ⟨by simp [talkImagesHandler, hb], by simp [talkImagesHandler, hb],
    ?_, ?_, ?_, ?_⟩
  · intro hl
    simp [talkImagesHandler, hb, talkStorageWrite, multerWriteField, hl]
  · intro hla
    simp [talkImagesHandler, hb, talkStorageWrite, multerWriteField, hla]
  · intro c hl
    rw [hl] at hb
    simp only [Option.isSome_some, Bool.true_and] at hb
    simp [talkImagesHandler, hb, talkStorageWrite, multerWriteField, hl]
  · intro c hla
    rw [hla] at hb
    simp only [Option.isSome_some, Bool.and_true] at hb
    simp [talkImagesHandler, hb, talkStorageWrite, multerWriteField, hla]

/-- C9 witness: the amended frame theorem at a concrete rejected partial
upload. -/
theorem C9_partial_upload_frame_witness :
    (talkImagesHandler { live := some "NEW", last := none }
        { store := { live := some "OLD", last := some "B" }
          talkReady := true }).resp.status = 400
    ∧ (talkImagesHandler { live := some "NEW", last := none }
        { store := { live := some "OLD", last := some "B" }
          talkReady := true }).state.store.last = some "B"
    ∧ (talkImagesHandler { live := some "NEW", last := none }
        { store := { live := some "OLD", last := some "B" }
          talkReady := true }).state.store.live = some "NEW" := by
  have h := C9_partial_upload_frame
    { store := { live := some "OLD", last := some "B" }, talkReady := true }
    { live := some "NEW", last := none } (by decide)
  exact ⟨h.1, h.2.2.2.1 rfl, h.2.2.2.2.1 "NEW" rfl⟩

/-- C10: an absent or empty query text is rejected before any effect: the
REST handler answers 400 `ok:false` with no gateway call and no state
change, and the socket handler emits nothing, makes no call and changes no
state. -/
theorem C10_empty_text_rejected (st : TalkState) (o : GatewayOutcome)
    (text : Option String) (h : text = none ∨ text = some "") :
    (talkQueryHandler text o st).resp = { status := 400, ok := false, reply := none }
    ∧ (talkQueryHandler text o st).request = none
    ∧ (talkQueryHandler text o st).state = st
    ∧ (talkUserInputHandler text o st).emitted = none
    ∧ (talkUserInputHandler text o st).request = none
    ∧ (talkUserInputHandler text o st).state = st := by
  rcases h with h | h <;> subst h <;> cases hf : st.talkReady <;>
    simp [talkQueryHandler, talkUserInputHandler, hf]

/-- C10 witness: the empty-text rejection theorem at a concrete ready
session and an empty text. -/
theorem C10_empty_text_rejected_witness :
    (talkQueryHandler (some "") (GatewayOutcome.responds (some "ignored"))
        { store := { live := some "L", last := some "P" }
          talkReady := true }).resp = { status := 400, ok := false, reply := none }
    ∧ (talkQueryHandler (some "") (GatewayOutcome.responds (some "ignored"))
        { store := { live := some "L", last := some "P" }
          talkReady := true }).request = none := by
  have h := C10_empty_text_rejected
    { store := { live := some "L", last := some "P" }, talkReady := true }
    (GatewayOutcome.responds (some "ignored")) (some "") (Or.inr rfl)
  exact ⟨h.1, h.2.1⟩

end BlindAid
